import Mathlib

/-!
Shallow embedding of `src/Code/plot.py`, a plotting script for precomputed
radioactive-decay simulation data.  All literal arrays of the script are
embedded as lists of exact rationals; the analytic curve
`N_analitik = N0 * exp(-lambda_decay * waktu)` is embedded over the reals
with `Real.exp`.
-/

namespace Plot

/-- `waktu`: the literal time samples in seconds (plot.py line 13). -/
def waktu : List ℚ :=
  [0.00, 132140.16, 264280.32, 396420.48, 528560.64,
   660700.80, 792840.96, 924981.12, 1057121.28, 1189261.44, 1321401.60]

/-- `waktu_hari = waktu / (24 * 3600)` (plot.py line 18). -/
def waktu_hari : List ℚ := waktu.map (fun t => t / (24 * 3600))

/-- Simulation with dt = 33035 s (plot.py line 23). -/
def N_dt_33035 : List ℚ :=
  [1.000e15, 7.503e14, 5.629e14, 4.223e14, 3.168e14,
   2.377e14, 1.783e14, 1.338e14, 1.004e14, 7.532e13, 5.651e13]

/-- Simulation with dt = 16518 s (plot.py line 27). -/
def N_dt_16518 : List ℚ :=
  [1.000e15, 7.541e14, 5.687e14, 4.289e14, 3.235e14,
   2.439e14, 1.840e14, 1.387e14, 1.046e14, 7.890e13, 5.950e13]

/-- Simulation with dt = 6607 s (plot.py line 31). -/
def N_dt_6607 : List ℚ :=
  [1.000e15, 7.564e14, 5.721e14, 4.327e14, 3.273e14,
   2.476e14, 1.873e14, 1.417e14, 1.071e14, 8.104e13, 6.130e13]

/-- Simulation with dt = 3304 s (plot.py line 35). -/
def N_dt_3304 : List ℚ :=
  [1.000e15, 7.571e14, 5.732e14, 4.340e14, 3.286e14,
   2.488e14, 1.884e14, 1.426e14, 1.080e14, 8.176e13, 6.190e13]

/-- Simulation with dt = 1652 s (plot.py line 39). -/
def N_dt_1652 : List ℚ :=
  [1.000e15, 7.575e14, 5.738e14, 4.346e14, 3.292e14,
   2.494e14, 1.889e14, 1.431e14, 1.084e14, 8.211e13, 6.220e13]

/-- `N0`, initial number of atoms (plot.py line 45). -/
def N0 : ℚ := 1.00e15

/-- `lambda_decay`, decay constant in 1/s (plot.py line 46). -/
def lambda_decay : ℚ := 2.0982e-6

/-- `N_analitik = N0 * exp(-lambda_decay * waktu)`, element-wise
(plot.py line 51). -/
noncomputable def N_analitik : List ℝ :=
  waktu.map (fun t => (N0 : ℝ) * Real.exp (-(lambda_decay : ℝ) * (t : ℝ)))

/-- Relative error data for dt = 33035 s (plot.py line 83). -/
def error_33035 : List ℚ :=
  [0.0000, 1.0027, 1.9953, 2.9780, 3.9508, 4.9139, 5.8673, 6.8112, 7.7456,
   8.6706, 9.5864]

/-- Relative error data for dt = 16518 s (plot.py line 84). -/
def error_16518 : List ℚ :=
  [0.0000, 0.4906, 0.9789, 1.4647, 1.9482, 2.4293, 2.9080, 3.3844, 3.8584,
   4.3301, 4.7995]

/-- Relative error data for dt = 6607 s (plot.py line 85). -/
def error_6607 : List ℚ :=
  [0.0000, 0.1938, 0.3872, 0.5802, 0.7729, 0.9652, 1.1571, 1.3487, 1.5398,
   1.7306, 1.9211]

/-- Relative error data for dt = 3304 s (plot.py line 86). -/
def error_3304 : List ℚ :=
  [0.0000, 0.0965, 0.1929, 0.2892, 0.3854, 0.4815, 0.5775, 0.6735, 0.7693,
   0.8651, 0.9607]

/-- Relative error data for dt = 1652 s (plot.py line 87). -/
def error_1652 : List ℚ :=
  [0.0000, 0.0481, 0.0963, 0.1444, 0.1924, 0.2405, 0.2885, 0.3365, 0.3845,
   0.4325, 0.4804]

/-! ### Rational bracketing of the analytic curve

The literal time samples are exact multiples of `132140.16`, so
`N_analitik.getD i 0 = N0 * q ^ i` with `q = exp (-qc)`,
`qc = lambda_decay * 132140.16 = 0.277256483712`.  We bracket `q` between
two decimal rationals via the Taylor remainder bound `Real.exp_bound`. -/

/-- The exact product `lambda_decay * 132140.16`. -/
def qc : ℚ := 0.277256483712

/-- Rational lower bound for `exp (-qc)`. -/
def qLo : ℚ := 0.75786009340

/-- Rational upper bound for `exp (-qc)`. -/
def qHi : ℚ := 0.75786009342

lemma qc_abs_le_one : |(-(qc : ℝ))| ≤ 1 := by
  rw [abs_neg, abs_of_nonneg (by norm_num [qc])]
  norm_num [qc]

lemma q_bounds :
    (qLo : ℝ) ≤ Real.exp (-(qc : ℝ)) ∧ Real.exp (-(qc : ℝ)) ≤ (qHi : ℝ) := by
  have h := Real.exp_bound qc_abs_le_one (n := 10) (by norm_num)
  rw [abs_neg, abs_of_nonneg (by norm_num [qc] : (0:ℝ) ≤ (qc : ℝ))] at h
  simp only [Finset.sum_range_succ, Finset.sum_range_zero, Nat.factorial] at h
  rw [abs_le] at h
  obtain ⟨h1, h2⟩ := h
  constructor
  · rw [qLo]
    norm_num [qc] at h1 ⊢
    linarith
  · rw [qHi]
    norm_num [qc] at h2 ⊢
    linarith

lemma analitik_getD (i : ℕ) (h : i < 11) :
    N_analitik.getD i 0 =
      (N0 : ℝ) * Real.exp (-(lambda_decay : ℝ) * ((waktu.getD i 0 : ℚ) : ℝ)) := by
  interval_cases i <;> rfl

lemma waktu_getD_mul : ∀ i : ℕ, i < 11 → waktu.getD i 0 = (i : ℚ) * 132140.16 := by
  intro i h
  interval_cases i <;> norm_num [waktu]

lemma lam_t1 : lambda_decay * 132140.16 = qc := by
  norm_num [lambda_decay, qc]

lemma A_pow (i : ℕ) (h : i < 11) :
    N_analitik.getD i 0 = (N0 : ℝ) * Real.exp (-(qc : ℝ)) ^ i := by
  rw [analitik_getD i h, waktu_getD_mul i h]
  congr 1
  rw [← Real.exp_nat_mul]
  congr 1
  have hc : ((lambda_decay * 132140.16 : ℚ) : ℝ) = ((qc : ℚ) : ℝ) := by
    rw [lam_t1]
  push_cast at hc ⊢
  linear_combination (-(i : ℝ)) * hc

/-- Rational lower bound for `N_analitik.getD i 0`. -/
def aLo (i : ℕ) : ℚ := 1e15 * qLo ^ i

/-- Rational upper bound for `N_analitik.getD i 0`. -/
def aHi (i : ℕ) : ℚ := 1e15 * qHi ^ i

lemma analitik_bounds (i : ℕ) (h : i < 11) :
    ((aLo i : ℚ) : ℝ) ≤ N_analitik.getD i 0 ∧
      N_analitik.getD i 0 ≤ ((aHi i : ℚ) : ℝ) := by
  rw [A_pow i h]
  obtain ⟨hq1, hq2⟩ := q_bounds
  have hqLo : (0 : ℝ) ≤ (qLo : ℝ) := by norm_num [qLo]
  have hexp : (0 : ℝ) ≤ Real.exp (-(qc : ℝ)) := (Real.exp_pos _).le
  have h1 : ((qLo : ℝ)) ^ i ≤ Real.exp (-(qc : ℝ)) ^ i := pow_le_pow_left₀ hqLo hq1 i
  have h2 : Real.exp (-(qc : ℝ)) ^ i ≤ ((qHi : ℝ)) ^ i := pow_le_pow_left₀ hexp hq2 i
  have hN0R : (N0 : ℝ) = 1e15 := by norm_num [N0]
  have haLo : ((aLo i : ℚ) : ℝ) = 1e15 * ((qLo : ℝ)) ^ i := by
    simp only [aLo]
    push_cast
    norm_num
  have haHi : ((aHi i : ℚ) : ℝ) = 1e15 * ((qHi : ℝ)) ^ i := by
    simp only [aHi]
    push_cast
    norm_num
  rw [haLo, haHi, hN0R]
  constructor
  · exact mul_le_mul_of_nonneg_left h1 (by norm_num)
  · exact mul_le_mul_of_nonneg_left h2 (by norm_num)

lemma analitik_pos (i : ℕ) (h : i < 11) : 0 < N_analitik.getD i 0 := by
  rw [A_pow i h, show (N0 : ℝ) = 1e15 by norm_num [N0]]
  positivity

/-- Generic bridge: rational endpoint inequalities against the bracketing
`aLo i ≤ N_analitik.getD i 0 ≤ aHi i` yield the percentage-form relative
error bound over the reals. -/
lemma relerr_le (e n hu : ℚ) (i : ℕ) (hi : i < 11)
    (he0 : 0 ≤ e) (he99 : e ≤ 99)
    (hn : n ≤ aLo i)
    (hr1 : (e - 100 - 1/20000) * aLo i + 100 * n ≤ 100 * hu)
    (hr2 : (100 - e - 1/20000) * aHi i - 100 * n ≤ 100 * hu) :
    |(e : ℝ) - |(n : ℝ) - N_analitik.getD i 0| / N_analitik.getD i 0 * 100| ≤
      (hu : ℝ) / N_analitik.getD i 0 * 100 + 0.00005 := by
  obtain ⟨hA1, hA2⟩ := analitik_bounds i hi
  have hApos := analitik_pos i hi
  set A := N_analitik.getD i 0 with hAdef
  have hnA : (n : ℝ) ≤ A := le_trans (by exact_mod_cast hn) hA1
  have habs : |(n : ℝ) - A| = A - (n : ℝ) := by
    rw [abs_of_nonpos (by linarith), neg_sub]
  rw [habs]
  have hr1R : (((e - 100 - 1/20000) * aLo i + 100 * n : ℚ) : ℝ) ≤
      ((100 * hu : ℚ) : ℝ) := Rat.cast_le.mpr hr1
  have hr2R : (((100 - e - 1/20000) * aHi i - 100 * n : ℚ) : ℝ) ≤
      ((100 * hu : ℚ) : ℝ) := Rat.cast_le.mpr hr2
  push_cast at hr1R hr2R
  have he0R : (0 : ℝ) ≤ (e : ℝ) := by exact_mod_cast he0
  have he99R : (e : ℝ) ≤ 99 := by exact_mod_cast he99
  have key1 : ((e : ℝ) - 100 - 1/20000) * A + 100 * (n : ℝ) ≤ 100 * (hu : ℝ) := by
    have hcoef : (e : ℝ) - 100 - 1/20000 ≤ 0 := by linarith
    have := mul_le_mul_of_nonpos_left hA1 hcoef
    linarith
  have key2 : (100 - (e : ℝ) - 1/20000) * A - 100 * (n : ℝ) ≤ 100 * (hu : ℝ) := by
    have hcoef : (0 : ℝ) ≤ 100 - (e : ℝ) - 1/20000 := by linarith
    have := mul_le_mul_of_nonneg_left hA2 hcoef
    linarith
  have hAne : A ≠ 0 := ne_of_gt hApos
  rw [abs_le]
  constructor
  · have heq : -((hu : ℝ) / A * 100 + 0.00005) - ((e : ℝ) - (A - (n : ℝ)) / A * 100) =
        ((100 - (e : ℝ) - 1/20000) * A - 100 * (n : ℝ) - 100 * (hu : ℝ)) / A := by
      field_simp
      ring
    have hnum : (100 - (e : ℝ) - 1/20000) * A - 100 * (n : ℝ) - 100 * (hu : ℝ) ≤ 0 := by
      linarith
    have hdiv : ((100 - (e : ℝ) - 1/20000) * A - 100 * (n : ℝ) - 100 * (hu : ℝ)) / A ≤ 0 :=
      div_nonpos_iff.mpr (Or.inr ⟨hnum, hApos.le⟩)
    linarith [heq ▸ hdiv]
  · have heq : ((e : ℝ) - (A - (n : ℝ)) / A * 100) - ((hu : ℝ) / A * 100 + 0.00005) =
        (((e : ℝ) - 100 - 1/20000) * A + 100 * (n : ℝ) - 100 * (hu : ℝ)) / A := by
      field_simp
      ring
    have hnum : ((e : ℝ) - 100 - 1/20000) * A + 100 * (n : ℝ) - 100 * (hu : ℝ) ≤ 0 := by
      linarith
    have hdiv : (((e : ℝ) - 100 - 1/20000) * A + 100 * (n : ℝ) - 100 * (hu : ℝ)) / A ≤ 0 :=
      div_nonpos_iff.mpr (Or.inr ⟨hnum, hApos.le⟩)
    linarith [heq ▸ hdiv]

/-- Half of one unit in the last significant digit of each 4-significant-figure
simulation literal (same exponent pattern in all five series). -/
def hu_lit : List ℚ :=
  [5e11, 5e10, 5e10, 5e10, 5e10, 5e10, 5e10, 5e10, 5e10, 5e9, 5e9]

lemma side_33035 : ∀ i : ℕ, i < 11 →
    0 ≤ error_33035.getD i 0 ∧ error_33035.getD i 0 ≤ 99 ∧
    N_dt_33035.getD i 0 ≤ aLo i ∧
    (error_33035.getD i 0 - 100 - 1/20000) * aLo i + 100 * N_dt_33035.getD i 0 ≤
      100 * (2 * hu_lit.getD i 0) ∧
    (100 - error_33035.getD i 0 - 1/20000) * aHi i - 100 * N_dt_33035.getD i 0 ≤
      100 * (2 * hu_lit.getD i 0) := by
  intro i h
  interval_cases i <;>
    norm_num [error_33035, N_dt_33035, hu_lit, aLo, aHi, qLo, qHi]

lemma side_16518 : ∀ i : ℕ, i < 11 →
    0 ≤ error_16518.getD i 0 ∧ error_16518.getD i 0 ≤ 99 ∧
    N_dt_16518.getD i 0 ≤ aLo i ∧
    (error_16518.getD i 0 - 100 - 1/20000) * aLo i + 100 * N_dt_16518.getD i 0 ≤
      100 * (2 * hu_lit.getD i 0) ∧
    (100 - error_16518.getD i 0 - 1/20000) * aHi i - 100 * N_dt_16518.getD i 0 ≤
      100 * (2 * hu_lit.getD i 0) := by
  intro i h
  interval_cases i <;>
    norm_num [error_16518, N_dt_16518, hu_lit, aLo, aHi, qLo, qHi]

lemma side_6607 : ∀ i : ℕ, i < 11 →
    0 ≤ error_6607.getD i 0 ∧ error_6607.getD i 0 ≤ 99 ∧
    N_dt_6607.getD i 0 ≤ aLo i ∧
    (error_6607.getD i 0 - 100 - 1/20000) * aLo i + 100 * N_dt_6607.getD i 0 ≤
      100 * (2 * hu_lit.getD i 0) ∧
    (100 - error_6607.getD i 0 - 1/20000) * aHi i - 100 * N_dt_6607.getD i 0 ≤
      100 * (2 * hu_lit.getD i 0) := by
  intro i h
  interval_cases i <;>
    norm_num [error_6607, N_dt_6607, hu_lit, aLo, aHi, qLo, qHi]

lemma side_3304 : ∀ i : ℕ, i < 11 →
    0 ≤ error_3304.getD i 0 ∧ error_3304.getD i 0 ≤ 99 ∧
    N_dt_3304.getD i 0 ≤ aLo i ∧
    (error_3304.getD i 0 - 100 - 1/20000) * aLo i + 100 * N_dt_3304.getD i 0 ≤
      100 * (2 * hu_lit.getD i 0) ∧
    (100 - error_3304.getD i 0 - 1/20000) * aHi i - 100 * N_dt_3304.getD i 0 ≤
      100 * (2 * hu_lit.getD i 0) := by
  intro i h
  interval_cases i <;>
    norm_num [error_3304, N_dt_3304, hu_lit, aLo, aHi, qLo, qHi]

lemma side_1652 : ∀ i : ℕ, i < 11 →
    0 ≤ error_1652.getD i 0 ∧ error_1652.getD i 0 ≤ 99 ∧
    N_dt_1652.getD i 0 ≤ aLo i ∧
    (error_1652.getD i 0 - 100 - 1/20000) * aLo i + 100 * N_dt_1652.getD i 0 ≤
      100 * (2 * hu_lit.getD i 0) ∧
    (100 - error_1652.getD i 0 - 1/20000) * aHi i - 100 * N_dt_1652.getD i 0 ≤
      100 * (2 * hu_lit.getD i 0) := by
  intro i h
  interval_cases i <;>
    norm_num [error_1652, N_dt_1652, hu_lit, aLo, aHi, qLo, qHi]

lemma sim_chain : ∀ i : ℕ, i < 11 →
    N_dt_33035.getD i 0 ≤ N_dt_16518.getD i 0 ∧
    N_dt_16518.getD i 0 ≤ N_dt_6607.getD i 0 ∧
    N_dt_6607.getD i 0 ≤ N_dt_3304.getD i 0 ∧
    N_dt_3304.getD i 0 ≤ N_dt_1652.getD i 0 := by
  intro i h
  interval_cases i <;>
    norm_num [N_dt_33035, N_dt_16518, N_dt_6607, N_dt_3304, N_dt_1652]

/-- Claim C1: at every fixed index i with 0 < i < 11 the error of a larger
time step dominates the error of a smaller one,
`error_33035[i] ≥ error_16518[i] ≥ error_6607[i] ≥ error_3304[i] ≥
error_1652[i]`, and at the last index `error_33035[10] = 9.5864` and
`error_1652[10] = 0.4804`. -/
theorem C1_error_ordering :
    (∀ i : ℕ, 0 < i → i < 11 →
      error_16518.getD i 0 ≤ error_33035.getD i 0 ∧
      error_6607.getD i 0 ≤ error_16518.getD i 0 ∧
      error_3304.getD i 0 ≤ error_6607.getD i 0 ∧
      error_1652.getD i 0 ≤ error_3304.getD i 0) ∧
    error_33035.getD 10 0 = 9.5864 ∧ error_1652.getD 10 0 = 0.4804 := by
  refine ⟨fun i h0 h1 => ?_, by norm_num [error_33035], by norm_num [error_1652]⟩
  interval_cases i <;>
    norm_num [error_33035, error_16518, error_6607, error_3304, error_1652]

/-- Witness for C1 at the concrete index 5. -/
theorem C1_error_ordering_witness :
    error_16518.getD 5 0 ≤ error_33035.getD 5 0 ∧
    error_1652.getD 5 0 ≤ error_3304.getD 5 0 :=
  ⟨(C1_error_ordering.1 5 (by norm_num) (by norm_num)).1,
   (C1_error_ordering.1 5 (by norm_num) (by norm_num)).2.2.2⟩

/-- Claim C2: the analytic series has 11 elements and is computed
element-wise as `N(t) = 1.0e15 * exp(-2.0982e-6 * t)` over the literal
time samples. -/
theorem C2_analitik_formula :
    N_analitik.length = 11 ∧ ∀ i : ℕ, i < 11 →
      N_analitik.getD i 0 =
        (1.0e15 : ℝ) * Real.exp (-(2.0982e-6 : ℝ) * ((waktu.getD i 0 : ℚ) : ℝ)) := by
  constructor
  · rfl
  · intro i h
    rw [analitik_getD i h,
      show ((N0 : ℚ) : ℝ) = (1.0e15 : ℝ) by norm_num [N0],
      show ((lambda_decay : ℚ) : ℝ) = (2.0982e-6 : ℝ) by norm_num [lambda_decay]]

/-- Witness for C2 at the concrete index 4. -/
theorem C2_analitik_formula_witness :
    N_analitik.length = 11 ∧
    N_analitik.getD 4 0 =
      (1.0e15 : ℝ) * Real.exp (-(2.0982e-6 : ℝ) * ((waktu.getD 4 0 : ℚ) : ℝ)) :=
  ⟨C2_analitik_formula.1, C2_analitik_formula.2 4 (by norm_num)⟩

/-- Claim C3: the time series, the five simulation series, the analytic
series and the five error series all have length 11 (index alignment to the
shared timestamps; in this pure embedding no series is ever mutated after
its definition, matching the straight-line script). -/
theorem C3_all_lengths :
    waktu.length = 11 ∧ waktu_hari.length = 11 ∧
    N_dt_33035.length = 11 ∧ N_dt_16518.length = 11 ∧ N_dt_6607.length = 11 ∧
    N_dt_3304.length = 11 ∧ N_dt_1652.length = 11 ∧
    N_analitik.length = 11 ∧
    error_33035.length = 11 ∧ error_16518.length = 11 ∧ error_6607.length = 11 ∧
    error_3304.length = 11 ∧ error_1652.length = 11 :=
  ⟨rfl, rfl, rfl, rfl, rfl, rfl, rfl, rfl, rfl, rfl, rfl, rfl, rfl⟩

/-- Claim C4: each of the five simulation series is monotonically
non-increasing across the time index. -/
theorem C4_sim_nonincreasing : ∀ i : ℕ, i < 10 →
    N_dt_33035.getD (i + 1) 0 ≤ N_dt_33035.getD i 0 ∧
    N_dt_16518.getD (i + 1) 0 ≤ N_dt_16518.getD i 0 ∧
    N_dt_6607.getD (i + 1) 0 ≤ N_dt_6607.getD i 0 ∧
    N_dt_3304.getD (i + 1) 0 ≤ N_dt_3304.getD i 0 ∧
    N_dt_1652.getD (i + 1) 0 ≤ N_dt_1652.getD i 0 := by
  intro i h
  interval_cases i <;>
    norm_num [N_dt_33035, N_dt_16518, N_dt_6607, N_dt_3304, N_dt_1652]

/-- Witness for C4 at the concrete index 0. -/
theorem C4_sim_nonincreasing_witness :
    N_dt_33035.getD 1 0 ≤ N_dt_33035.getD 0 0 ∧
    N_dt_1652.getD 1 0 ≤ N_dt_1652.getD 0 0 :=
  ⟨(C4_sim_nonincreasing 0 (by norm_num)).1,
   (C4_sim_nonincreasing 0 (by norm_num)).2.2.2.2⟩

/-- Claim C6: the analytic series at the first timestamp (t = 0) equals
exactly N0 = 1.0e15. -/
theorem C6_analitik_at_zero : N_analitik.getD 0 0 = 1.0e15 := by
  rw [analitik_getD 0 (by norm_num),
    show (waktu.getD 0 0 : ℚ) = 0 by norm_num [waktu]]
  norm_num [N0]

/-- Claim C7: the first element of every one of the five relative-error
series equals 0.0000. -/
theorem C7_error_zero_at_start :
    error_33035.getD 0 0 = 0.0000 ∧ error_16518.getD 0 0 = 0.0000 ∧
    error_6607.getD 0 0 = 0.0000 ∧ error_3304.getD 0 0 = 0.0000 ∧
    error_1652.getD 0 0 = 0.0000 := by
  norm_num [error_33035, error_16518, error_6607, error_3304, error_1652]

/-- Claim C8: converting the second-based timestamps to days (division by
86400) and back (multiplication by 86400) reproduces the original values
exactly. -/
theorem C8_day_roundtrip : ∀ i : ℕ, i < 11 →
    waktu_hari.getD i 0 * 86400 = waktu.getD i 0 := by
  intro i h
  interval_cases i <;> norm_num [waktu_hari, waktu]

/-- Witness for C8 at the concrete index 7. -/
theorem C8_day_roundtrip_witness :
    waktu_hari.getD 7 0 * 86400 = waktu.getD 7 0 :=
  C8_day_roundtrip 7 (by norm_num)

/-- Counterexample to claim C5 as stated (agreement within half a unit in
the last place of the literals): at series `dt = 6607` and index 3 the
literal error 0.5802 differs from `|N_dt - N_analitik| / N_analitik * 100`
by more than `100 * (ulp/2) / N_analitik + 0.00005`. -/
theorem C5_half_ulp_counterexample :
    ¬ (|(error_6607.getD 3 0 : ℝ) -
          |(N_dt_6607.getD 3 0 : ℝ) - N_analitik.getD 3 0| / N_analitik.getD 3 0 * 100| ≤
        (hu_lit.getD 3 0 : ℝ) / N_analitik.getD 3 0 * 100 + 0.00005) := by
  obtain ⟨hA1, hA2⟩ := analitik_bounds 3 (by norm_num)
  have hApos := analitik_pos 3 (by norm_num)
  set A := N_analitik.getD 3 0 with hAdef
  rw [show ((error_6607.getD 3 0 : ℚ) : ℝ) = 0.5802 by norm_num [error_6607],
    show ((N_dt_6607.getD 3 0 : ℚ) : ℝ) = 4.327e14 by norm_num [N_dt_6607],
    show ((hu_lit.getD 3 0 : ℚ) : ℝ) = 5e10 by norm_num [hu_lit]]
  intro hcon
  have hnA : (4.327e14 : ℝ) ≤ A :=
    le_trans (by norm_num [aLo, qLo]) hA1
  have habs : |(4.327e14 : ℝ) - A| = A - 4.327e14 := by
    rw [abs_of_nonpos (by linarith), neg_sub]
  rw [habs] at hcon
  have hf : (A - (4.327e14 : ℝ)) / A * 100 - 0.5802 ≤ (5e10 : ℝ) / A * 100 + 0.00005 := by
    have h1 := (abs_le.mp hcon).1
    linarith
  have heq : ((A - (4.327e14 : ℝ)) / A * 100 - 0.5802) - ((5e10 : ℝ) / A * 100 + 0.00005) =
      ((100 - 0.5802 - 0.00005) * A - 100 * 4.327e14 - 100 * 5e10) / A := by
    field_simp
    ring
  have hco : (0 : ℝ) < (100 - 0.5802 - 0.00005) * ((aLo 3 : ℚ) : ℝ) -
      100 * 4.327e14 - 100 * 5e10 := by
    norm_num [aLo, qLo]
  have hnum : (0 : ℝ) < (100 - 0.5802 - 0.00005) * A - 100 * 4.327e14 - 100 * 5e10 := by
    have hmul : (100 - 0.5802 - 0.00005 : ℝ) * ((aLo 3 : ℚ) : ℝ) ≤
        (100 - 0.5802 - 0.00005 : ℝ) * A :=
      mul_le_mul_of_nonneg_left hA1 (by norm_num)
    linarith
  have hpos : (0 : ℝ) <
      ((100 - 0.5802 - 0.00005) * A - 100 * 4.327e14 - 100 * 5e10) / A :=
    div_pos hnum hApos
  rw [← heq] at hpos
  linarith

/-- Claim C5 (amended): each literal error value agrees with
`|N_dt[i] - N_analitik[i]| / N_analitik[i] * 100` within one unit in the
last significant digit of the 4-significant-figure simulation literal
(plus half a unit of the 4-decimal error literal). -/
theorem C5_error_formula_one_ulp : ∀ i : ℕ, i < 11 →
    (|(error_33035.getD i 0 : ℝ) -
        |(N_dt_33035.getD i 0 : ℝ) - N_analitik.getD i 0| / N_analitik.getD i 0 * 100| ≤
      ((2 * hu_lit.getD i 0 : ℚ) : ℝ) / N_analitik.getD i 0 * 100 + 0.00005) ∧
    (|(error_16518.getD i 0 : ℝ) -
        |(N_dt_16518.getD i 0 : ℝ) - N_analitik.getD i 0| / N_analitik.getD i 0 * 100| ≤
      ((2 * hu_lit.getD i 0 : ℚ) : ℝ) / N_analitik.getD i 0 * 100 + 0.00005) ∧
    (|(error_6607.getD i 0 : ℝ) -
        |(N_dt_6607.getD i 0 : ℝ) - N_analitik.getD i 0| / N_analitik.getD i 0 * 100| ≤
      ((2 * hu_lit.getD i 0 : ℚ) : ℝ) / N_analitik.getD i 0 * 100 + 0.00005) ∧
    (|(error_3304.getD i 0 : ℝ) -
        |(N_dt_3304.getD i 0 : ℝ) - N_analitik.getD i 0| / N_analitik.getD i 0 * 100| ≤
      ((2 * hu_lit.getD i 0 : ℚ) : ℝ) / N_analitik.getD i 0 * 100 + 0.00005) ∧
    (|(error_1652.getD i 0 : ℝ) -
        |(N_dt_1652.getD i 0 : ℝ) - N_analitik.getD i 0| / N_analitik.getD i 0 * 100| ≤
      ((2 * hu_lit.getD i 0 : ℚ) : ℝ) / N_analitik.getD i 0 * 100 + 0.00005) := by
  intro i h
  obtain ⟨a1, a2, a3, a4, a5⟩ := side_33035 i h
  obtain ⟨b1, b2, b3, b4, b5⟩ := side_16518 i h
  obtain ⟨c1, c2, c3, c4, c5⟩ := side_6607 i h
  obtain ⟨d1, d2, d3, d4, d5⟩ := side_3304 i h
  obtain ⟨f1, f2, f3, f4, f5⟩ := side_1652 i h
  exact ⟨relerr_le _ _ _ i h a1 a2 a3 a4 a5,
    relerr_le _ _ _ i h b1 b2 b3 b4 b5,
    relerr_le _ _ _ i h c1 c2 c3 c4 c5,
    relerr_le _ _ _ i h d1 d2 d3 d4 d5,
    relerr_le _ _ _ i h f1 f2 f3 f4 f5⟩

/-- Witness for the amended C5 at the concrete index 3, series dt = 6607. -/
theorem C5_error_formula_one_ulp_witness :
    |(error_6607.getD 3 0 : ℝ) -
        |(N_dt_6607.getD 3 0 : ℝ) - N_analitik.getD 3 0| / N_analitik.getD 3 0 * 100| ≤
      ((2 * hu_lit.getD 3 0 : ℚ) : ℝ) / N_analitik.getD 3 0 * 100 + 0.00005 :=
  (C5_error_formula_one_ulp 3 (by norm_num)).2.2.1

/-- Claim C9: every simulation series underestimates the analytic curve at
every index, and at every index the simulation values are ordered by
time-step size, finer steps lying closer to (but below) the analytic
value. -/
theorem C9_sim_underestimates : ∀ i : ℕ, i < 11 →
    ((N_dt_33035.getD i 0 : ℝ) ≤ N_analitik.getD i 0 ∧
     (N_dt_16518.getD i 0 : ℝ) ≤ N_analitik.getD i 0 ∧
     (N_dt_6607.getD i 0 : ℝ) ≤ N_analitik.getD i 0 ∧
     (N_dt_3304.getD i 0 : ℝ) ≤ N_analitik.getD i 0 ∧
     (N_dt_1652.getD i 0 : ℝ) ≤ N_analitik.getD i 0) ∧
    (0 < i →
      N_dt_33035.getD i 0 ≤ N_dt_16518.getD i 0 ∧
      N_dt_16518.getD i 0 ≤ N_dt_6607.getD i 0 ∧
      N_dt_6607.getD i 0 ≤ N_dt_3304.getD i 0 ∧
      N_dt_3304.getD i 0 ≤ N_dt_1652.getD i 0) := by
  intro i h
  have hA1 := (analitik_bounds i h).1
  refine ⟨⟨?_, ?_, ?_, ?_, ?_⟩, fun _ => sim_chain i h⟩
  · exact le_trans (Rat.cast_le.mpr (side_33035 i h).2.2.1) hA1
  · exact le_trans (Rat.cast_le.mpr (side_16518 i h).2.2.1) hA1
  · exact le_trans (Rat.cast_le.mpr (side_6607 i h).2.2.1) hA1
  · exact le_trans (Rat.cast_le.mpr (side_3304 i h).2.2.1) hA1
  · exact le_trans (Rat.cast_le.mpr (side_1652 i h).2.2.1) hA1

/-- Witness for C9 at the concrete index 2. -/
theorem C9_sim_underestimates_witness :
    (N_dt_1652.getD 2 0 : ℝ) ≤ N_analitik.getD 2 0 ∧
    N_dt_33035.getD 2 0 ≤ N_dt_16518.getD 2 0 :=
  ⟨(C9_sim_underestimates 2 (by norm_num)).1.2.2.2.2,
   ((C9_sim_underestimates 2 (by norm_num)).2 (by norm_num)).1⟩

/-- Claim C10: each of the five relative-error series is strictly
increasing across the time index, and consequently strictly positive at
every index greater than 0. -/
theorem C10_error_strictly_increasing :
    (∀ i : ℕ, i < 10 →
      error_33035.getD i 0 < error_33035.getD (i + 1) 0 ∧
      error_16518.getD i 0 < error_16518.getD (i + 1) 0 ∧
      error_6607.getD i 0 < error_6607.getD (i + 1) 0 ∧
      error_3304.getD i 0 < error_3304.getD (i + 1) 0 ∧
      error_1652.getD i 0 < error_1652.getD (i + 1) 0) ∧
    (∀ i : ℕ, 0 < i → i < 11 →
      0 < error_33035.getD i 0 ∧ 0 < error_16518.getD i 0 ∧
      0 < error_6607.getD i 0 ∧ 0 < error_3304.getD i 0 ∧
      0 < error_1652.getD i 0) := by
  constructor
  · intro i h
    interval_cases i <;>
      norm_num [error_33035, error_16518, error_6607, error_3304, error_1652]
  · intro i h0 h1
    interval_cases i <;>
      norm_num [error_33035, error_16518, error_6607, error_3304, error_1652]

/-- Witness for C10 at the concrete indices 0 (increment) and 1
(positivity). -/
theorem C10_error_strictly_increasing_witness :
    error_33035.getD 0 0 < error_33035.getD 1 0 ∧ 0 < error_1652.getD 1 0 :=
  ⟨(C10_error_strictly_increasing.1 0 (by norm_num)).1,
   (C10_error_strictly_increasing.2 1 (by norm_num) (by norm_num)).2.2.2.2⟩

end Plot
